import Mathlib

/-!
Shallow embedding of the Personal-Task-Manager persistence layer:
`database.py` (`execute_query` / `fetch_query`), `user_auth.py`
(`hash_password`, `verify_password`, `register_user`, `validate_user`) and
`task.py` (task CRUD and filtered queries).  The relational store is
modelled as lists of rows kept in rowid (insertion) order, which is the
order a plain `SELECT *` without `ORDER BY` scans them in; the
`AUTOINCREMENT` primary keys are modelled by an explicit counter that
never decreases and is never reused after a delete.
-/

namespace TaskManager

/-- A row of the `tasks` table as created by `create_tables` in
`database.py`: id, user_id, title, description, due_date, priority,
status (the `status` column carries the default owner of the workflow
enumeration but is stored as free text). -/
structure Task where
  id : Nat
  user_id : Nat
  title : String
  description : String
  due_date : String
  priority : String
  status : String
  deriving DecidableEq, Repr

/-- The `tasks` table together with its `AUTOINCREMENT` counter: `tasks`
holds the rows in rowid (insertion) order, `next_id` is the next id the
store will generate; `AUTOINCREMENT` never reuses an id, so `next_id`
only grows and deletes do not lower it. -/
structure TaskStore where
  tasks : List Task
  next_id : Nat
  deriving DecidableEq, Repr

/-- The value stored in the `password` column of `users`.  `bcrypt.hashpw`
output is an opaque salted digest, which this embedding keeps symbolic:
`hashed salt pw` is the digest of plaintext `pw` under salt `salt` (the
digest determines but does not reveal `pw`); `plain s` is a raw plaintext
string, which nothing in the code ever stores but which the column could
physically hold. -/
inductive CredValue where
  | plain (s : String)
  | hashed (salt : Nat) (pw : String)
  deriving DecidableEq, Repr

/-- A row of the `users` table: id, username (UNIQUE), email (UNIQUE),
password. -/
structure User where
  id : Nat
  username : String
  email : String
  password : CredValue
  deriving DecidableEq, Repr

/-- The `users` table with its `AUTOINCREMENT` counter, as for tasks. -/
structure UserStore where
  users : List User
  next_id : Nat
  deriving DecidableEq, Repr

/-- `hash_password` from `user_auth.py`: `bcrypt.hashpw(password.encode(),
bcrypt.gensalt())`.  The fresh random salt drawn by `gensalt()` is made
an explicit argument `salt`; the digest is the symbolic `CredValue.hashed`
value, never the plaintext. -/
def hash_password (password : String) (salt : Nat) : CredValue :=
  CredValue.hashed salt password

/-- `bcrypt.checkpw(password.encode(), stored)`: succeeds exactly when
`stored` is a bcrypt digest of `password` (under whatever salt it
carries).  Against a value that is not a bcrypt digest it fails. -/
def checkpw (password : String) (stored : CredValue) : Bool :=
  match stored with
  | CredValue.hashed _ pw => pw = password
  | CredValue.plain _ => false

/-- `verify_password` from `user_auth.py`: delegates to `bcrypt.checkpw`. -/
def verify_password (password : String) (stored : CredValue) : Bool :=
  checkpw password stored

/-- `validate_user` from `user_auth.py`: `SELECT id, password FROM users
WHERE username = ?`, `fetchone()` (the first matching row in rowid
order), then `bcrypt.checkpw`; returns the id on a match and `None` both
when no row matches and when the hash check fails. -/
def validate_user (s : UserStore) (username password : String) : Option Nat :=
  match (s.users.filter (fun u => u.username = username)).head? with
  | some u => if checkpw password u.password then some u.id else none
  | none => none

/-- Result of `register_user`: the store after the call, the returned
message string, and whether control reached the `INSERT` statement
(`insert_attempted` is the instrumentation needed to talk about which
mechanism detected a duplicate). -/
structure RegOutcome where
  store : UserStore
  message : String
  insert_attempted : Bool
  deriving DecidableEq, Repr

/-- `register_user` from `user_auth.py`.  It first runs the pre-check
`SELECT id FROM users WHERE email = ?`; if a row exists it returns
"Email already registered" without ever reaching the `INSERT`.  Otherwise
it hashes the password and runs `INSERT INTO users (email, password,
username) VALUES (?, ?, ?)`; a UNIQUE-constraint violation on `username`
raises `sqlite3.IntegrityError`, which the bare `except` turns into a
"Registration error: ..." message.  `salt` models the `bcrypt.gensalt()`
draw inside `hash_password`. -/
def register_user (s : UserStore) (salt : Nat) (email password username : String) :
    RegOutcome :=
  if s.users.any (fun u => u.email = email) then
    ⟨s, "Email already registered", false⟩
  else if s.users.any (fun u => u.username = username) then
    ⟨s, "Registration error: UNIQUE constraint failed: users.username", true⟩
  else
    ⟨⟨s.users ++ [⟨s.next_id, username, email, hash_password password salt⟩],
      s.next_id + 1⟩,
     "User registered successfully", true⟩

/-- An operation against the credential layer.  Registration is the only
mutation `user_auth.py` offers (users are never updated or deleted); the
`Nat` is the `gensalt()` draw for that call. -/
inductive AuthOp where
  | reg (salt : Nat) (email password username : String)
  deriving DecidableEq, Repr

/-- Runs a sequence of credential mutations against a store. -/
def run_auth (s : UserStore) : List AuthOp → UserStore
  | [] => s
  | AuthOp.reg salt e p u :: ops => run_auth (register_user s salt e p u).store ops

/-- `execute_query` from `database.py`: runs a mutating statement and
commits.  On `sqlite3.Error` it logs "An error occurred while executing
query: ..." and re-raises.  A statement is modelled as a function from
the store to `Except`; the result pairs the propagated outcome with the
log lines emitted. -/
def execute_query (stmt : TaskStore → Except String TaskStore) (s : TaskStore) :
    Except String TaskStore × List String :=
  match stmt s with
  | Except.ok s2 => (Except.ok s2, [])
  | Except.error e => (Except.error e, ["An error occurred while executing query: " ++ e])

/-- `fetch_query` from `database.py`: runs a read statement and returns
`fetchall()`.  On `sqlite3.Error` it logs "An error occurred while
fetching data: ..." and returns the empty list instead of raising. -/
def fetch_query (stmt : TaskStore → Except String (List Task)) (s : TaskStore) :
    List Task × List String :=
  match stmt s with
  | Except.ok rows => (rows, [])
  | Except.error e => ([], ["An error occurred while fetching data: " ++ e])

/-- `add_task_with_status` from `task.py`: `INSERT INTO tasks (user_id,
title, description, due_date, priority, status) VALUES (?, ?, ?, ?, ?, ?)`.
The id is generated by `AUTOINCREMENT`; the function itself returns
`None`. -/
def add_task_with_status (s : TaskStore) (user_id : Nat)
    (title description due_date priority status : String) : TaskStore :=
  ⟨s.tasks ++ [⟨s.next_id, user_id, title, description, due_date, priority, status⟩],
   s.next_id + 1⟩

/-- `update_task_with_status` from `task.py`: `UPDATE tasks SET title = ?,
description = ?, due_date = ?, priority = ?, status = ? WHERE id = ?` —
every row whose id matches has all five columns rewritten; id and
user_id are not in the SET list and rows with other ids are untouched. -/
def update_task_with_status (s : TaskStore) (task_id : Nat)
    (title description due_date priority status : String) : TaskStore :=
  ⟨s.tasks.map (fun t =>
      if t.id = task_id then
        ⟨t.id, t.user_id, title, description, due_date, priority, status⟩
      else t),
   s.next_id⟩

/-- `delete_task` from `task.py`: `DELETE FROM tasks WHERE id = ?`; no
existence check, and `AUTOINCREMENT` keeps the counter. -/
def delete_task (s : TaskStore) (task_id : Nat) : TaskStore :=
  ⟨s.tasks.filter (fun t => t.id ≠ task_id), s.next_id⟩

/-- `get_tasks_by_user_id` from `task.py`: `SELECT * FROM tasks WHERE
user_id = ?` — no `ORDER BY`, so rows come back in rowid (insertion)
order. -/
def get_tasks_by_user_id (s : TaskStore) (user_id : Nat) : List Task :=
  s.tasks.filter (fun t => t.user_id = user_id)

/-- `get_task_by_id` from `task.py`: `SELECT * FROM tasks WHERE id = ?`,
then `results[0] if results else None`. -/
def get_task_by_id (s : TaskStore) (task_id : Nat) : Option Task :=
  (s.tasks.filter (fun t => t.id = task_id)).head?

/-- `get_tasks_by_status` from `task.py`: `SELECT * FROM tasks WHERE
status = ?`.  Its only parameter is the status — it takes no owner and
has no `ORDER BY` (its caller `task_dashboard` in `app.py` nevertheless
passes it two arguments, `(user_id, status_filter)`). -/
def get_tasks_by_status (s : TaskStore) (status : String) : List Task :=
  s.tasks.filter (fun t => t.status = status)

/-- `set_priority` from `task.py`: `UPDATE tasks SET priority = ? WHERE
id = ?`, then unconditionally returns "Priority updated successfully". -/
def set_priority (s : TaskStore) (priority : String) (task_id : Nat) :
    TaskStore × String :=
  (⟨s.tasks.map (fun t => if t.id = task_id then
      ⟨t.id, t.user_id, t.title, t.description, t.due_date, priority, t.status⟩
    else t), s.next_id⟩,
   "Priority updated successfully")

/-- `set_due_date` from `task.py`: `UPDATE tasks SET due_date = ? WHERE
id = ?`, then unconditionally returns "Due date updated successfully". -/
def set_due_date (s : TaskStore) (due_date : String) (task_id : Nat) :
    TaskStore × String :=
  (⟨s.tasks.map (fun t => if t.id = task_id then
      ⟨t.id, t.user_id, t.title, t.description, due_date, t.priority, t.status⟩
    else t), s.next_id⟩,
   "Due date updated successfully")

/-- `set_title` from `task.py`: `UPDATE tasks SET title = ? WHERE id = ?`,
then unconditionally returns "Title updated successfully". -/
def set_title (s : TaskStore) (title : String) (task_id : Nat) :
    TaskStore × String :=
  (⟨s.tasks.map (fun t => if t.id = task_id then
      ⟨t.id, t.user_id, title, t.description, t.due_date, t.priority, t.status⟩
    else t), s.next_id⟩,
   "Title updated successfully")

/-- `set_description` from `task.py`: `UPDATE tasks SET description = ?
WHERE id = ?`, then unconditionally returns "Description updated
successfully". -/
def set_description (s : TaskStore) (description : String) (task_id : Nat) :
    TaskStore × String :=
  (⟨s.tasks.map (fun t => if t.id = task_id then
      ⟨t.id, t.user_id, t.title, description, t.due_date, t.priority, t.status⟩
    else t), s.next_id⟩,
   "Description updated successfully")

/-- The empty store a fresh `task_manager.db` starts from: no rows,
first generated id is 1 (SQLite rowids start at 1). -/
def emptyTaskStore : TaskStore := ⟨[], 1⟩

/-- The empty `users` table of a fresh database. -/
def emptyUserStore : UserStore := ⟨[], 1⟩

/-- The spec scenario store for the ordering claim: owner 1 creates a
task due "2025-03-01" first and a task due "2025-01-15" second. -/
def c1_store : TaskStore :=
  add_task_with_status
    (add_task_with_status emptyTaskStore 1 "March task" "" "2025-03-01" "Low" "Pending")
    1 "January task" "" "2025-01-15" "Low" "Pending"

/-- A store with a "Completed" task for owner 1 and a "Completed" task
for owner 2, exercising the owner scoping of the status query. -/
def c2_store : TaskStore :=
  add_task_with_status
    (add_task_with_status emptyTaskStore 1 "Mine" "" "2025-01-01" "Low" "Completed")
    2 "Someone elses" "" "2025-01-02" "Low" "Completed"

/-- A store with a single task of id 1 owned by user 1, used to witness
the setter and frame theorems at a concrete input. -/
def demo_store : TaskStore :=
  add_task_with_status emptyTaskStore 1 "Buy milk" "" "2025-01-01" "Low" "Pending"

/-- A mutating statement that always fails, as a malformed or
constraint-violating `INSERT` would. -/
def failing_write : TaskStore → Except String TaskStore :=
  fun _ => Except.error "UNIQUE constraint failed: users.email"

/-- A read statement that always fails, as a `SELECT` against a missing
table would. -/
def failing_read : TaskStore → Except String (List Task) :=
  fun _ => Except.error "no such table: tasks"

/-- A users table holding exactly the user "alice" registered with
password "pw1!" under salt 0. -/
def demo_user_store : UserStore :=
  (register_user emptyUserStore 0 "a@b.c" "pw1!" "alice").store

/-!
Theorems.  The doc comments name the claim (C1–C10) each theorem
settles; the remaining lemmas are shared helpers.
-/

/-- Registration keeps every stored password a salted bcrypt digest:
helper for the credential invariant. -/
theorem register_user_preserves_hashed (s : UserStore) (salt : Nat) (e p un : String)
    (hs : ∀ u ∈ s.users, ∃ sa pt, u.password = hash_password pt sa) :
    ∀ u ∈ (register_user s salt e p un).store.users,
      ∃ sa pt, u.password = hash_password pt sa := by
  intro u hu
  by_cases h1 : s.users.any (fun v => v.email = e)
  · simp [register_user, h1] at hu
    exact hs u hu
  · by_cases h2 : s.users.any (fun v => v.username = un)
    · simp [register_user, h1, h2] at hu
      exact hs u hu
    · simp [register_user, h1, h2] at hu
      rcases hu with hu | hu
      · exact hs u hu
      · exact ⟨salt, p, by rw [hu]⟩

/-- C1 (amended): `get_tasks_by_user_id` returns exactly the tasks whose
owner is `owner`, but in rowid (insertion) order — the query has no
`ORDER BY due_date` — so in the spec scenario the task due "2025-03-01",
created first, is returned first. -/
theorem get_tasks_by_user_id_owner_scoped_insertion_order (s : TaskStore) (owner : Nat) :
    (∀ t, t ∈ get_tasks_by_user_id s owner ↔ t ∈ s.tasks ∧ t.user_id = owner) ∧
    (get_tasks_by_user_id s owner).Sublist s.tasks ∧
    (get_tasks_by_user_id c1_store 1).map Task.due_date = ["2025-03-01", "2025-01-15"] := by
  refine ⟨fun t => ?_, List.filter_sublist _, by decide⟩
  simp [get_tasks_by_user_id, List.mem_filter]

/-- C1 (counterexample): in the spec scenario — two tasks for owner 1
created with due dates "2025-03-01" then "2025-01-15" — the first task
returned is NOT the one due "2025-01-15" (it is the one due
"2025-03-01"), refuting the claimed ascending due_date order. -/
theorem get_tasks_by_user_id_not_sorted_by_due_date :
    (get_tasks_by_user_id c1_store 1).head?.map Task.due_date ≠ some "2025-01-15" ∧
    (get_tasks_by_user_id c1_store 1).head?.map Task.due_date = some "2025-03-01" := by
  exact ⟨by decide, rfl⟩

/-- C2 (code evaluated at the failing input): `get_tasks_by_status` takes
only a status — no owner — so on a store holding a "Completed" task of
owner 1 and a "Completed" task of owner 2 it returns both, and its result
differs from the owner-1 list filtered by status.  (Its caller
`task_dashboard` in `app.py` even passes it two arguments,
`(user_id, status_filter)`, which the one-parameter signature rejects.) -/
theorem get_tasks_by_status_ignores_owner :
    (get_tasks_by_status c2_store "Completed").map Task.user_id = [1, 2] ∧
    get_tasks_by_status c2_store "Completed" ≠
      (get_tasks_by_user_id c2_store 1).filter (fun t => t.status = "Completed") := by
  exact ⟨rfl, by decide⟩

/-- C3 (amended): a registration whose email is already stored returns
"Email already registered", leaves the store unchanged, and never reaches
the `INSERT` — the duplicate is detected by the pre-check
`SELECT id FROM users WHERE email = ?`, not by the unique constraint of
the insert.  This applies on every call after the email is first stored. -/
theorem register_user_duplicate_email_precheck (s : UserStore) (salt : Nat)
    (email password username : String)
    (h : ∃ u ∈ s.users, u.email = email) :
    (register_user s salt email password username).message = "Email already registered" ∧
    (register_user s salt email password username).store = s ∧
    (register_user s salt email password username).insert_attempted = false := by
  obtain ⟨u, hu, he⟩ := h
  have hany : s.users.any (fun u => u.email = email) = true := by
    simp only [List.any_eq_true, decide_eq_true_eq]
    exact ⟨u, hu, he⟩
  simp [register_user, hany]

/-- C3 (witness): after registering "a@b.c" once into the empty store, a
second registration with the same email hits the duplicate branch of
`register_user_duplicate_email_precheck` at this concrete input. -/
theorem register_user_duplicate_email_precheck_witness :
    (∃ u ∈ (register_user emptyUserStore 0 "a@b.c" "pw1!" "alice").store.users,
        u.email = "a@b.c") ∧
    ((register_user (register_user emptyUserStore 0 "a@b.c" "pw1!" "alice").store 1
        "a@b.c" "pw2!" "bob").message = "Email already registered" ∧
     (register_user (register_user emptyUserStore 0 "a@b.c" "pw1!" "alice").store 1
        "a@b.c" "pw2!" "bob").store =
       (register_user emptyUserStore 0 "a@b.c" "pw1!" "alice").store ∧
     (register_user (register_user emptyUserStore 0 "a@b.c" "pw1!" "alice").store 1
        "a@b.c" "pw2!" "bob").insert_attempted = false) :=
  ⟨⟨⟨1, "alice", "a@b.c", CredValue.hashed 0 "pw1!"⟩, by decide, rfl⟩,
   register_user_duplicate_email_precheck _ 1 "a@b.c" "pw2!" "bob"
     ⟨⟨1, "alice", "a@b.c", CredValue.hashed 0 "pw1!"⟩, by decide, rfl⟩⟩

/-- C3 (counterexample): at the concrete input of a second registration
of "a@b.c", the duplicate is reported with `insert_attempted = false` —
the `INSERT` is never reached, refuting the claim that the insert's
unique constraint (rather than a separate pre-check query) decides
duplicates. -/
theorem register_user_duplicate_not_decided_by_insert :
    (register_user (register_user emptyUserStore 0 "a@b.c" "pw1!" "alice").store 1
        "a@b.c" "pw2!" "bob").message = "Email already registered" ∧
    ¬ (register_user (register_user emptyUserStore 0 "a@b.c" "pw1!" "alice").store 1
        "a@b.c" "pw2!" "bob").insert_attempted = true :=
  ⟨rfl, by decide⟩

/-- C4: error handling is asymmetric by design — for every mutating
statement, `execute_query` logs the statement context and re-raises the
storage error to the caller, while for every read statement,
`fetch_query` catches the error, logs it, and returns the empty sequence
instead of propagating. -/
theorem query_error_asymmetry
    (w : TaskStore → Except String TaskStore) (r : TaskStore → Except String (List Task))
    (s : TaskStore) (e1 e2 : String) :
    (w s = Except.error e1 →
      execute_query w s =
        (Except.error e1, ["An error occurred while executing query: " ++ e1])) ∧
    (r s = Except.error e2 →
      fetch_query r s = ([], ["An error occurred while fetching data: " ++ e2])) := by
  constructor
  · intro h
    simp [execute_query, h]
  · intro h
    simp [fetch_query, h]

/-- C4 (witness): at the concrete always-failing write and read
statements on the empty store, the write error propagates with its log
line and the failed read returns the empty list with its log line. -/
theorem query_error_asymmetry_witness :
    (failing_write emptyTaskStore =
        Except.error "UNIQUE constraint failed: users.email" ∧
     failing_read emptyTaskStore = Except.error "no such table: tasks") ∧
    (execute_query failing_write emptyTaskStore =
      (Except.error "UNIQUE constraint failed: users.email",
       ["An error occurred while executing query: " ++ "UNIQUE constraint failed: users.email"]) ∧
     fetch_query failing_read emptyTaskStore =
      ([], ["An error occurred while fetching data: " ++ "no such table: tasks"])) :=
  ⟨⟨rfl, rfl⟩,
   ⟨(query_error_asymmetry failing_write failing_read emptyTaskStore
       "UNIQUE constraint failed: users.email" "no such table: tasks").1 rfl,
    (query_error_asymmetry failing_write failing_read emptyTaskStore
       "UNIQUE constraint failed: users.email" "no such table: tasks").2 rfl⟩⟩

/-- C5: `validate_user` returns `none` both when no stored user has the
given username and when the first matching user's stored hash rejects
the password — the two failure cases yield the same observable result. -/
theorem validate_user_uniform_failure (s : UserStore) (username password : String) :
    ((∀ u ∈ s.users, u.username ≠ username) → validate_user s username password = none) ∧
    (∀ u, (s.users.filter (fun v => v.username = username)).head? = some u →
      checkpw password u.password = false → validate_user s username password = none) := by
  constructor
  · intro h
    have hfil : s.users.filter (fun v => v.username = username) = [] := by
      rw [List.filter_eq_nil_iff]
      intro a ha
      simp [h a ha]
    simp [validate_user, hfil]
  · intro u hu hcheck
    simp [validate_user, hu, hcheck]

/-- C5 (witness): on the store holding only "alice", looking up the
unknown user "zed" and looking up "alice" with a wrong password both
return `none`. -/
theorem validate_user_uniform_failure_witness :
    (∀ u ∈ demo_user_store.users, u.username ≠ "zed") ∧
    validate_user demo_user_store "zed" "pw1!" = none ∧
    ((demo_user_store.users.filter (fun v => v.username = "alice")).head? =
        some ⟨1, "alice", "a@b.c", CredValue.hashed 0 "pw1!"⟩ ∧
     checkpw "wrong" (CredValue.hashed 0 "pw1!") = false ∧
     validate_user demo_user_store "alice" "wrong" = none) :=
  ⟨by decide,
   (validate_user_uniform_failure demo_user_store "zed" "pw1!").1 (by decide),
   by decide,
   by decide,
   (validate_user_uniform_failure demo_user_store "alice" "wrong").2
     ⟨1, "alice", "a@b.c", CredValue.hashed 0 "pw1!"⟩ (by decide) (by decide)⟩

/-- C6: credential invariant — starting from any store whose passwords
are all salted bcrypt digests, every sequence of registrations preserves
that every stored password is `hash_password` applied to the plaintext
under some salt (in particular it is never the raw plaintext), and
`validate_user` only ever accepts through `checkpw` hash verification on
a stored user, never through plaintext equality. -/
theorem password_hash_invariant (ops : List AuthOp) (s : UserStore)
    (hs : ∀ u ∈ s.users, ∃ salt pt, u.password = hash_password pt salt) :
    (∀ u ∈ (run_auth s ops).users, ∃ salt pt, u.password = hash_password pt salt) ∧
    (∀ u ∈ (run_auth s ops).users, ∀ str, u.password ≠ CredValue.plain str) ∧
    (∀ username password uid, validate_user s username password = some uid →
      ∃ u ∈ s.users, u.username = username ∧ checkpw password u.password = true) := by
  have hmain : ∀ u ∈ (run_auth s ops).users, ∃ salt pt, u.password = hash_password pt salt := by
    induction ops generalizing s with
    | nil => exact hs
    | cons op ops ih =>
      cases op with
      | reg salt e p un =>
        exact ih (register_user s salt e p un).store
          (register_user_preserves_hashed s salt e p un hs)
  refine ⟨hmain, ?_, ?_⟩
  · intro u hu str
    obtain ⟨sa, pt, hp⟩ := hmain u hu
    rw [hp]
    simp [hash_password]
  · intro username password uid hv
    unfold validate_user at hv
    cases hh : (s.users.filter (fun v => v.username = username)).head? with
    | none =>
      rw [hh] at hv
      simp at hv
    | some u =>
      rw [hh] at hv
      by_cases hc : checkpw password u.password
      · have humem : u ∈ s.users.filter (fun v => v.username = username) := by
          cases hl : s.users.filter (fun v => v.username = username) with
          | nil =>
            rw [hl] at hh
            simp at hh
          | cons a as =>
            rw [hl] at hh
            simp at hh
            rw [hh]
            exact List.mem_cons_self u as
        rw [List.mem_filter] at humem
        exact ⟨u, humem.1, by simpa using humem.2, hc⟩
      · simp [hc] at hv

/-- C6 (witness): from the empty store (vacuously hash-only), after one
registration every stored password is still a salted digest of the
registered plaintext. -/
theorem password_hash_invariant_witness :
    (∀ u ∈ emptyUserStore.users, ∃ salt pt, u.password = hash_password pt salt) ∧
    (∀ u ∈ (run_auth emptyUserStore [AuthOp.reg 0 "a@b.c" "pw1!" "alice"]).users,
      ∃ salt pt, u.password = hash_password pt salt) :=
  ⟨by simp [emptyUserStore],
   (password_hash_invariant [AuthOp.reg 0 "a@b.c" "pw1!" "alice"] emptyUserStore
     (by simp [emptyUserStore])).1⟩

/-- If the first row a filter returns is `t`, then `t` satisfies the
filter predicate: helper for reasoning about `fetchone`-style access. -/
theorem mem_of_head_filter {α : Type} (l : List α) (p : α → Bool) (t : α)
    (h : (l.filter p).head? = some t) : p t = true := by
  cases hl : l.filter p with
  | nil =>
    rw [hl] at h
    simp at h
  | cons a as =>
    rw [hl] at h
    simp at h
    have ha : a ∈ l.filter p := by
      rw [hl]
      exact List.mem_cons_self a as
    rw [List.mem_filter] at ha
    rw [← h]
    exact ha.2

/-- Filtering for an id commutes with a row transformation that keeps
ids: helper for the `UPDATE ... WHERE id = ?` statements. -/
theorem filter_head_map_preserving (l : List Task) (g : Task → Task)
    (hid : ∀ t, (g t).id = t.id) (k : Nat) :
    ((l.map g).filter (fun t => t.id = k)).head? =
      ((l.filter (fun t => t.id = k)).head?).map g := by
  rw [List.filter_map]
  have hp : ((fun t : Task => decide (t.id = k)) ∘ g) = fun t : Task => decide (t.id = k) := by
    funext t
    simp [Function.comp, hid]
  rw [hp, List.head?_map]

/-- Rows whose id does not match are untouched by an id-targeted row
transformation: the frame half of the `UPDATE` statements. -/
theorem filter_ne_map_preserving (l : List Task) (g : Task → Task) (k : Nat)
    (hid : ∀ t, (g t).id = t.id) (hfix : ∀ t, t.id ≠ k → g t = t) :
    (l.map g).filter (fun t => t.id ≠ k) = l.filter (fun t => t.id ≠ k) := by
  induction l with
  | nil => rfl
  | cons a l ih =>
    by_cases ha : a.id = k
    · have h1 : decide ((g a).id ≠ k) = false := by simp [hid, ha]
      have h2 : decide (a.id ≠ k) = false := by simp [ha]
      simp only [List.map_cons, List.filter_cons, h1, h2, ih, Bool.false_eq_true, if_false]
    · have h1 : decide ((g a).id ≠ k) = true := by simp [hid, ha]
      have h2 : decide (a.id ≠ k) = true := by simp [ha]
      simp only [List.map_cons, List.filter_cons, h1, h2, ih, if_true]
      rw [hfix a ha]

/-- A map that only rewrites rows with id `k` is the identity on a list
holding no such row: helper for the no-match update frame. -/
theorem map_if_id_eq_self (l : List Task) (k : Nat) (f : Task → Task)
    (h : ∀ t ∈ l, t.id ≠ k) :
    l.map (fun t => if t.id = k then f t else t) = l := by
  induction l with
  | nil => rfl
  | cons a as ih =>
    simp only [List.map_cons]
    rw [if_neg (h a (List.mem_cons_self a as))]
    rw [ih (fun t ht => h t (List.mem_cons_of_mem a ht))]

/-- C7: round-trip — creating a task and reading back the freshly
generated id returns a row whose title, description, due_date, priority
and status are exactly the values passed, owned by the creator, and the
generated id differs from every id already in the store (the
`AUTOINCREMENT` counter is strictly above all existing ids). -/
theorem add_task_round_trip (s : TaskStore) (owner : Nat)
    (title desc due prio stat : String)
    (hfresh : ∀ t ∈ s.tasks, t.id < s.next_id) :
    get_task_by_id (add_task_with_status s owner title desc due prio stat) s.next_id =
      some ⟨s.next_id, owner, title, desc, due, prio, stat⟩ ∧
    ∀ t ∈ s.tasks, t.id ≠ s.next_id := by
  have hne : ∀ t ∈ s.tasks, t.id ≠ s.next_id := fun t ht => Nat.ne_of_lt (hfresh t ht)
  refine ⟨?_, hne⟩
  unfold get_task_by_id add_task_with_status
  rw [List.filter_append]
  have h1 : s.tasks.filter (fun t => t.id = s.next_id) = [] := by
    rw [List.filter_eq_nil_iff]
    intro a ha
    simp [hne a ha]
  rw [h1]
  simp

/-- C7 (witness): adding "Walk dog" to the one-task store and reading
back id 2 returns exactly the row passed in. -/
theorem add_task_round_trip_witness :
    (∀ t ∈ demo_store.tasks, t.id < demo_store.next_id) ∧
    get_task_by_id
      (add_task_with_status demo_store 1 "Walk dog" "" "2025-02-02" "High" "To Do")
      demo_store.next_id =
      some ⟨demo_store.next_id, 1, "Walk dog", "", "2025-02-02", "High", "To Do"⟩ :=
  ⟨by decide,
   (add_task_round_trip demo_store 1 "Walk dog" "" "2025-02-02" "High" "To Do"
     (by decide)).1⟩

/-- C8: the full-record update rewrites title, description, due_date,
priority and status of the matched task together while keeping its id
and user_id, so a subsequent `get_task_by_id` sees every new field; the
counter and every row with a different id are unchanged. -/
theorem update_task_round_trip (s : TaskStore) (task_id : Nat)
    (title desc due prio stat : String) :
    (∀ t, get_task_by_id s task_id = some t →
      get_task_by_id (update_task_with_status s task_id title desc due prio stat) task_id =
        some ⟨t.id, t.user_id, title, desc, due, prio, stat⟩) ∧
    (update_task_with_status s task_id title desc due prio stat).next_id = s.next_id ∧
    (update_task_with_status s task_id title desc due prio stat).tasks.filter
        (fun t => t.id ≠ task_id) =
      s.tasks.filter (fun t => t.id ≠ task_id) := by
  refine ⟨?_, rfl, ?_⟩
  · intro t ht
    unfold get_task_by_id at ht
    have htid : t.id = task_id := by
      have := mem_of_head_filter s.tasks (fun u => u.id = task_id) t ht
      simpa using this
    unfold get_task_by_id update_task_with_status
    rw [filter_head_map_preserving s.tasks _
      (fun u => by by_cases h : u.id = task_id <;> simp [h]) task_id]
    rw [ht]
    simp only [Option.map_some']
    rw [if_pos htid]
  · unfold update_task_with_status
    exact filter_ne_map_preserving s.tasks _ task_id
      (fun u => by by_cases h : u.id = task_id <;> simp [h])
      (fun u hu => by rw [if_neg hu])

/-- C8 (witness): updating task 1 of the one-task store to new
description, due date, priority and status is fully visible on
re-reading id 1, with id and owner untouched. -/
theorem update_task_round_trip_witness :
    get_task_by_id demo_store 1 =
      some ⟨1, 1, "Buy milk", "", "2025-01-01", "Low", "Pending"⟩ ∧
    get_task_by_id
      (update_task_with_status demo_store 1 "Buy milk" "now" "2025-01-02" "High" "Completed") 1 =
      some ⟨1, 1, "Buy milk", "now", "2025-01-02", "High", "Completed"⟩ :=
  ⟨rfl,
   (update_task_round_trip demo_store 1 "Buy milk" "now" "2025-01-02" "High" "Completed").1
     ⟨1, 1, "Buy milk", "", "2025-01-01", "Low", "Pending"⟩ rfl⟩

/-- C9: after a delete the id reads back as `none`; deleting again is a
no-op (no error is possible — the function is total); and deleting an id
no stored task has leaves the store exactly as it was. -/
theorem delete_task_then_get_none (s : TaskStore) (task_id : Nat) :
    get_task_by_id (delete_task s task_id) task_id = none ∧
    delete_task (delete_task s task_id) task_id = delete_task s task_id ∧
    ((∀ t ∈ s.tasks, t.id ≠ task_id) → delete_task s task_id = s) := by
  refine ⟨?_, ?_, ?_⟩
  · have h : (s.tasks.filter (fun t => t.id ≠ task_id)).filter
        (fun t => t.id = task_id) = [] := by
      rw [List.filter_eq_nil_iff]
      intro a ha
      rw [List.mem_filter] at ha
      simpa using ha.2
    simp only [get_task_by_id, delete_task]
    rw [h]
    rfl
  · have h : (s.tasks.filter (fun t => t.id ≠ task_id)).filter
        (fun t => t.id ≠ task_id) = s.tasks.filter (fun t => t.id ≠ task_id) := by
      rw [List.filter_eq_self]
      intro a ha
      exact (List.mem_filter.mp ha).2
    simp only [delete_task]
    rw [h]
  · intro hnone
    have h : s.tasks.filter (fun t => t.id ≠ task_id) = s.tasks := by
      rw [List.filter_eq_self]
      intro a ha
      simpa using hnone a ha
    simp only [delete_task]
    rw [h]

/-- C9 (witness): deleting the absent id 99 from the one-task store is a
silent no-op, and after deleting id 1 the id reads back as `none`. -/
theorem delete_task_then_get_none_witness :
    (∀ t ∈ demo_store.tasks, t.id ≠ 99) ∧
    delete_task demo_store 99 = demo_store ∧
    get_task_by_id (delete_task demo_store 1) 1 = none :=
  ⟨by decide,
   (delete_task_then_get_none demo_store 99).2.2 (by decide),
   (delete_task_then_get_none demo_store 1).1⟩

/-- C10: each single-field setter returns its fixed confirmation string
for every store and id — including ids matching no row, where the store
is left unchanged — so the caller cannot tell a real update from a
no-match one. -/
theorem setter_messages_unconditional (s : TaskStore) (task_id : Nat) (v : String) :
    (set_priority s v task_id).2 = "Priority updated successfully" ∧
    (set_due_date s v task_id).2 = "Due date updated successfully" ∧
    (set_title s v task_id).2 = "Title updated successfully" ∧
    (set_description s v task_id).2 = "Description updated successfully" ∧
    ((∀ t ∈ s.tasks, t.id ≠ task_id) →
      (set_priority s v task_id).1 = s ∧
      (set_due_date s v task_id).1 = s ∧
      (set_title s v task_id).1 = s ∧
      (set_description s v task_id).1 = s) := by
  refine ⟨rfl, rfl, rfl, rfl, fun h => ⟨?_, ?_, ?_, ?_⟩⟩
  · simp only [set_priority]
    rw [map_if_id_eq_self s.tasks task_id
      (fun t => ⟨t.id, t.user_id, t.title, t.description, t.due_date, v, t.status⟩) h]
  · simp only [set_due_date]
    rw [map_if_id_eq_self s.tasks task_id
      (fun t => ⟨t.id, t.user_id, t.title, t.description, v, t.priority, t.status⟩) h]
  · simp only [set_title]
    rw [map_if_id_eq_self s.tasks task_id
      (fun t => ⟨t.id, t.user_id, v, t.description, t.due_date, t.priority, t.status⟩) h]
  · simp only [set_description]
    rw [map_if_id_eq_self s.tasks task_id
      (fun t => ⟨t.id, t.user_id, t.title, v, t.due_date, t.priority, t.status⟩) h]

/-- C10 (witness): targeting the absent id 99 on the one-task store,
every setter still reports success and the store is unchanged. -/
theorem setter_messages_unconditional_witness :
    (∀ t ∈ demo_store.tasks, t.id ≠ 99) ∧
    (set_priority demo_store "High" 99).2 = "Priority updated successfully" ∧
    ((set_priority demo_store "High" 99).1 = demo_store ∧
     (set_due_date demo_store "High" 99).1 = demo_store ∧
     (set_title demo_store "High" 99).1 = demo_store ∧
     (set_description demo_store "High" 99).1 = demo_store) :=
  ⟨by decide,
   (setter_messages_unconditional demo_store 99 "High").1,
   (setter_messages_unconditional demo_store 99 "High").2.2.2.2 (by decide)⟩

end TaskManager
